import Mathlib

/-!
# ContentBot workflow-orchestration engine: a shallow embedding

This file embeds, in Lean 4, the workflow-orchestration core of the
ContentBot repository as documented in `langgraph-implementation.md`
(the `ContentState` schema with its per-field LangGraph reducer
annotations, `create_viralearn_graph`, the agent node functions, the
conditional-edge decision functions, `handle_human_review`,
`retry_workflow_step`) and `DEVELOPER_INTEGRATION_GUIDE.md`
(`BaseAgent.run`), and proves or refutes the specification's claims
about it.

Python dictionaries are modelled as association lists over a small
value universe `PyVal`; a key's binding is the *last* entry for that
key, matching Python's last-writer-wins update semantics.  The
`operator.add` reducer is concatenation on list-valued fields; on the
dict-valued fields it is Python's `dict + dict`, which `dict` does not
implement and which therefore raises `TypeError`, so the merge engine
returns an error value whenever a delta presents one of those fields.
-/

namespace ContentBot

/-- A Python-ish value universe: strings, rationals standing in for the
source's numeric scores, booleans, and nested dictionaries
(association lists). -/
inductive PyVal where
  | str (s : String)
  | num (q : ℚ)
  | bool (b : Bool)
  | pdict (d : List (String × PyVal))

/-- A Python `dict` as an association list; the last binding for a key
is the one in force. -/
abbrev Dict := List (String × PyVal)

/-- Look a key up in a `Dict`, last binding winning (Python update
semantics: later writes shadow earlier ones). -/
def dlookup (d : Dict) (k : String) : Option PyVal :=
  match d with
  | [] => none
  | (k', v) :: rest =>
    match dlookup rest k with
    | some r => some r
    | none => if k' = k then some v else none

/-- `o.getD`-style extraction of a numeric value, defaulting like
Python's `dict.get(key, 0.0)`. -/
def getNumD (o : Option PyVal) (dfl : ℚ) : ℚ :=
  match o with
  | some (.num q) => q
  | _ => dfl

/-- Extraction of a boolean value, defaulting like Python's
`dict.get(key, False)`. -/
def getBoolD (o : Option PyVal) (dfl : Bool) : Bool :=
  match o with
  | some (.bool b) => b
  | _ => dfl

/-- Extraction of a string value with a default, like
`task.get("content_type", "blog_post")`. -/
def getStrD (o : Option PyVal) (dfl : String) : String :=
  match o with
  | some (.str s) => s
  | _ => dfl

/-- The shared workflow state document.  Fields 1–17 are the declared
keys of the `ContentState` TypedDict (`langgraph-implementation.md`
lines 32–62); the remaining fields are keys the node and condition
functions read or write through `state.get`/state updates
(`generation_tasks`, `task`, `user_preferences`, `target_platforms`,
`brand_compliance`, `human_feedback`, `human_review_status`,
`approval_timestamp`, `revision_notes`, `review_requested_at`,
`error_message`); a Python-absent key is modelled by `""`, `[]` or
`none`. -/
structure ContentState where
  workflow_id : String := ""
  user_id : String := ""
  status : String := ""
  current_agent : String := ""
  step_count : Nat := 0
  original_input : Dict := []
  input_analysis : Dict := []
  content_plan : Dict := []
  text_content : Dict := []        -- Annotated[dict, operator.add]
  image_content : Dict := []       -- Annotated[dict, operator.add]
  audio_content : Dict := []       -- Annotated[dict, operator.add]
  quality_scores : Dict := []
  quality_issues : List PyVal := []  -- Annotated[List[dict], operator.add]
  platform_content : Dict := []
  messages : List PyVal := []        -- Annotated[List, operator.add]
  error_log : List PyVal := []       -- Annotated[List[dict], operator.add]
  retry_count : Nat := 0
  generation_tasks : List PyVal := []
  task : Dict := []
  user_preferences : Dict := []
  target_platforms : List String := []
  brand_compliance : Dict := []
  human_feedback : Option Dict := none
  human_review_status : Option String := none
  approval_timestamp : Option String := none
  revision_notes : Option String := none
  review_requested_at : Option String := none
  error_message : Option String := none

/-- A state delta as produced by one step: for each state key, either
an update value or absence (`none` = the key is not in the returned
partial state). -/
structure StateDelta where
  workflow_id : Option String := none
  user_id : Option String := none
  status : Option String := none
  current_agent : Option String := none
  step_count : Option Nat := none
  original_input : Option Dict := none
  input_analysis : Option Dict := none
  content_plan : Option Dict := none
  text_content : Option Dict := none
  image_content : Option Dict := none
  audio_content : Option Dict := none
  quality_scores : Option Dict := none
  quality_issues : Option (List PyVal) := none
  platform_content : Option Dict := none
  messages : Option (List PyVal) := none
  error_log : Option (List PyVal) := none
  retry_count : Option Nat := none
  generation_tasks : Option (List PyVal) := none
  task : Option Dict := none
  user_preferences : Option Dict := none
  target_platforms : Option (List String) := none
  brand_compliance : Option Dict := none
  human_feedback : Option (Option Dict) := none
  human_review_status : Option (Option String) := none
  approval_timestamp : Option (Option String) := none
  revision_notes : Option (Option String) := none
  review_requested_at : Option (Option String) := none
  error_message : Option (Option String) := none

/-- The default (unannotated) LangGraph reducer: a key present in the
delta replaces the old value, an absent key leaves it untouched. -/
def replField {α : Type} (base : α) (upd : Option α) : α :=
  match upd with
  | some v => v
  | none => base

/-- The `operator.add` reducer on a list-valued field: a present key's
entries are concatenated onto the existing sequence, an absent key
leaves the old sequence untouched. -/
def addField {α : Type} (base : List α) (upd : Option (List α)) : List α :=
  match upd with
  | some v => base ++ v
  | none => base

/-- The message of the `TypeError` Python raises for `dict + dict`:
`dict` does not implement the `+` operator at all. -/
def dictAddTypeError : String :=
  "unsupported operand type(s) for +: 'dict' and 'dict'"

/-- The `operator.add` reducer on a *dict-valued* field
(`Annotated[dict, operator.add]`): when the delta presents the key the
reducer computes `existing + new` on two dicts, which raises
`TypeError` in Python — there is no dict addition — so the result is
an error; when the key is absent the reducer is not invoked and the
old mapping is kept. -/
def addDictField (base : Dict) (upd : Option Dict) : Except String Dict :=
  match upd with
  | some _ => .error dictAddTypeError
  | none => .ok base

/-- The state-merge engine: applies each field's reducer annotation
from the `ContentState` schema — `operator.add` on the list-valued
`quality_issues`, `messages`, `error_log` (concatenation) and on the
dict-valued `text_content`, `image_content`, `audio_content` (which
raises `TypeError` whenever the delta presents the key, propagated
here as an error value); plain replacement on every other key. -/
def mergeState (base : ContentState) (delta : StateDelta) :
    Except String ContentState :=
  match addDictField base.text_content delta.text_content with
  | .error e => .error e
  | .ok text_content =>
    match addDictField base.image_content delta.image_content with
    | .error e => .error e
    | .ok image_content =>
      match addDictField base.audio_content delta.audio_content with
      | .error e => .error e
      | .ok audio_content =>
        .ok { workflow_id := replField base.workflow_id delta.workflow_id
              user_id := replField base.user_id delta.user_id
              status := replField base.status delta.status
              current_agent := replField base.current_agent delta.current_agent
              step_count := replField base.step_count delta.step_count
              original_input := replField base.original_input delta.original_input
              input_analysis := replField base.input_analysis delta.input_analysis
              content_plan := replField base.content_plan delta.content_plan
              text_content := text_content
              image_content := image_content
              audio_content := audio_content
              quality_scores := replField base.quality_scores delta.quality_scores
              quality_issues := addField base.quality_issues delta.quality_issues
              platform_content := replField base.platform_content delta.platform_content
              messages := addField base.messages delta.messages
              error_log := addField base.error_log delta.error_log
              retry_count := replField base.retry_count delta.retry_count
              generation_tasks := replField base.generation_tasks delta.generation_tasks
              task := replField base.task delta.task
              user_preferences := replField base.user_preferences delta.user_preferences
              target_platforms := replField base.target_platforms delta.target_platforms
              brand_compliance := replField base.brand_compliance delta.brand_compliance
              human_feedback := replField base.human_feedback delta.human_feedback
              human_review_status := replField base.human_review_status delta.human_review_status
              approval_timestamp := replField base.approval_timestamp delta.approval_timestamp
              revision_notes := replField base.revision_notes delta.revision_notes
              review_requested_at := replField base.review_requested_at delta.review_requested_at
              error_message := replField base.error_message delta.error_message }

/-- Combination of two replace-policy updates: the later delta wins
when present. -/
def combineRepl {α : Type} (o1 o2 : Option α) : Option α :=
  match o2 with
  | some v => some v
  | none => o1

/-- Combination of two `operator.add` updates on a *list-valued*
field: the appended sequences are pre-concatenated in order. -/
def combineAdd {α : Type} (o1 o2 : Option (List α)) : Option (List α) :=
  match o1, o2 with
  | some a, some b => some (a ++ b)
  | some a, none => some a
  | none, o => o

/-- The claim's one-step combination of two Shallow-merge updates: the
nested mappings pre-unioned with the later update winning key
conflicts — under last-binding-wins lookup, appending the later
update's bindings is exactly that union.  This is the specification's
combination for the C4 statement; the code itself has no working
shallow merge on these fields at all (see `addDictField`). -/
def combineShallow (o1 o2 : Option Dict) : Option Dict :=
  match o1, o2 with
  | some a, some b => some (a ++ b)
  | some a, none => some a
  | none, o => o

/-- One-step combination of two deltas, per field policy (Append
sequences pre-concatenated, Shallow-merge mappings pre-unioned with
the later delta winning, replace keys taken from the later delta when
present). -/
def combineDelta (d1 d2 : StateDelta) : StateDelta where
  workflow_id := combineRepl d1.workflow_id d2.workflow_id
  user_id := combineRepl d1.user_id d2.user_id
  status := combineRepl d1.status d2.status
  current_agent := combineRepl d1.current_agent d2.current_agent
  step_count := combineRepl d1.step_count d2.step_count
  original_input := combineRepl d1.original_input d2.original_input
  input_analysis := combineRepl d1.input_analysis d2.input_analysis
  content_plan := combineRepl d1.content_plan d2.content_plan
  text_content := combineShallow d1.text_content d2.text_content
  image_content := combineShallow d1.image_content d2.image_content
  audio_content := combineShallow d1.audio_content d2.audio_content
  quality_scores := combineRepl d1.quality_scores d2.quality_scores
  quality_issues := combineAdd d1.quality_issues d2.quality_issues
  platform_content := combineRepl d1.platform_content d2.platform_content
  messages := combineAdd d1.messages d2.messages
  error_log := combineAdd d1.error_log d2.error_log
  retry_count := combineRepl d1.retry_count d2.retry_count
  generation_tasks := combineRepl d1.generation_tasks d2.generation_tasks
  task := combineRepl d1.task d2.task
  user_preferences := combineRepl d1.user_preferences d2.user_preferences
  target_platforms := combineRepl d1.target_platforms d2.target_platforms
  brand_compliance := combineRepl d1.brand_compliance d2.brand_compliance
  human_feedback := combineRepl d1.human_feedback d2.human_feedback
  human_review_status := combineRepl d1.human_review_status d2.human_review_status
  approval_timestamp := combineRepl d1.approval_timestamp d2.approval_timestamp
  revision_notes := combineRepl d1.revision_notes d2.revision_notes
  review_requested_at := combineRepl d1.review_requested_at d2.review_requested_at
  error_message := combineRepl d1.error_message d2.error_message

theorem replField_some {α : Type} (b : α) (v : α) :
    replField b (some v) = v := rfl

theorem replField_none {α : Type} (b : α) :
    replField b (none : Option α) = b := rfl

theorem addField_some {α : Type} (b : List α) (v : List α) :
    addField b (some v) = b ++ v := rfl

theorem addField_none {α : Type} (b : List α) :
    addField b (none : Option (List α)) = b := rfl

theorem replField_combine {α : Type} (b : α) (o1 o2 : Option α) :
    replField (replField b o1) o2 = replField b (combineRepl o1 o2) := by
  cases o2 <;> cases o1 <;> rfl

theorem addField_combine {α : Type} (b : List α) (o1 o2 : Option (List α)) :
    addField (addField b o1) o2 = addField b (combineAdd o1 o2) := by
  cases o2 <;> cases o1 <;> simp [addField, combineAdd]

/-- Looking up in a concatenation of dicts: the later (delta) side wins
when it binds the key, otherwise the earlier (base) side answers. -/
theorem dlookup_append (a b : Dict) (k : String) :
    dlookup (a ++ b) k =
      match dlookup b k with
      | some r => some r
      | none => dlookup a k := by
  induction a with
  | nil =>
    simp only [List.nil_append]
    cases dlookup b k <;> rfl
  | cons hd tl ih =>
    obtain ⟨k', v⟩ := hd
    have hcons : dlookup (((k', v) :: tl) ++ b) k =
        match dlookup (tl ++ b) k with
        | some r => some r
        | none => if k' = k then some v else none := rfl
    have hcons2 : dlookup ((k', v) :: tl) k =
        match dlookup tl k with
        | some r => some r
        | none => if k' = k then some v else none := rfl
    rw [hcons, ih, hcons2]
    cases dlookup b k <;> cases dlookup tl k <;> rfl

/-- The target of an edge or conditional branch: either a named node
or the terminal marker `END`. -/
inductive NodeTarget where
  | node (name : String)
  | terminal
deriving DecidableEq

/-! ## Conditional-edge decision functions
(`langgraph-implementation.md` §3, lines 364–441). -/

/-- The predicate of the `critical_issues` list comprehension inside
`quality_gate_condition`: `issue.get("severity") == "critical"`. -/
def isCriticalIssue (issue : PyVal) : Bool :=
  match issue with
  | .pdict d =>
    match dlookup d "severity" with
    | some (.str s) => s = "critical"
    | _ => false
  | _ => false

/-- `quality_gate_condition`: routes on critical issues and the
overall quality score (`overall_score`). -/
def quality_gate_condition (state : ContentState) : String :=
  match state.quality_issues.filter isCriticalIssue with
  | _ :: _ => "needs_improvement"
  | [] =>
    if getNumD (dlookup state.quality_scores "overall") 0 ≥ (0.8 : ℚ) then
      "approved"
    else if getNumD (dlookup state.quality_scores "overall") 0 ≥ (0.6 : ℚ) then
      "human_review"
    else "needs_improvement"

/-- `brand_compliance_condition`: routes on the overall brand
compliance score (`compliance_score`). -/
def brand_compliance_condition (state : ContentState) : String :=
  if getNumD (dlookup state.brand_compliance "overall_compliance") 0 ≥ (0.9 : ℚ)
  then "compliant" else "needs_revision"

/-- `completion_condition`: checks that every target platform has
optimized content and whether the user demands human review. -/
def completion_condition (state : ContentState) : String :=
  let platforms_ready := state.target_platforms.all fun platform =>
    (dlookup state.platform_content platform).isSome
  let requires_human_review :=
    getBoolD (dlookup state.user_preferences "require_human_review") false
  if platforms_ready && !requires_human_review then "complete"
  else if platforms_ready && requires_human_review then "needs_review"
  else "needs_optimization"

/-- `human_decision_condition`: routes on the human reviewer's
`action` field; anything other than approve/revise is a reject. -/
def human_decision_condition (state : ContentState) : String :=
  let human_feedback := state.human_feedback.getD []
  let action := dlookup human_feedback "action"
  match action with
  | some (.str s) =>
    if s = "approve" then "approved"
    else if s = "revise" then "revise"
    else "reject"
  | _ => "reject"

/-! ## The graph built by `create_viralearn_graph`
(`langgraph-implementation.md` lines 65–144). -/

/-- Branch map of the `quality_assurance` conditional edge. -/
def qualityGateBranches : List (String × NodeTarget) :=
  [("approved", .node "brand_voice"),
   ("needs_improvement", .node "parallel_generation"),
   ("human_review", .node "human_review")]

/-- Branch map of the `brand_voice` conditional edge. -/
def brandComplianceBranches : List (String × NodeTarget) :=
  [("compliant", .node "cross_platform"),
   ("needs_revision", .node "text_generator")]

/-- Branch map of the `cross_platform` conditional edge. -/
def crossPlatformBranches : List (String × NodeTarget) :=
  [("complete", .terminal),
   ("needs_review", .node "human_review")]

/-- Branch map of the `human_review` conditional edge. -/
def humanReviewBranches : List (String × NodeTarget) :=
  [("approved", .terminal),
   ("revise", .node "parallel_generation"),
   ("reject", .terminal)]

/-- A graph definition: the nodes added with `add_node`, the
unconditional edges, the conditional edges with their branch maps, the
entry point, and the configured interrupt points. -/
structure GraphDef where
  nodes : List String
  edges : List (String × String)
  conditionalEdges : List (String × List (String × NodeTarget))
  entryPoint : String
  interruptBefore : List String
  interruptAfter : List String

/-- The graph assembled by `create_viralearn_graph`: exactly the
`add_node`, `add_edge`, `add_conditional_edges`, `set_entry_point` and
`compile` calls of the source, in order. -/
def createViralearnGraph : GraphDef where
  nodes := ["input_analyzer", "content_planner", "text_generator",
            "image_generator", "audio_processor", "quality_assurance",
            "brand_voice", "cross_platform", "human_review", "tools"]
  edges := [("input_analyzer", "content_planner"),
            ("content_planner", "parallel_generation"),
            ("parallel_generation", "quality_assurance")]
  conditionalEdges := [("quality_assurance", qualityGateBranches),
                       ("brand_voice", brandComplianceBranches),
                       ("cross_platform", crossPlatformBranches),
                       ("human_review", humanReviewBranches)]
  entryPoint := "input_analyzer"
  interruptBefore := ["human_review"]
  interruptAfter := ["quality_assurance"]

/-- A conditional branch target is valid when it names an added node
or the terminal marker. -/
def validBranchTarget (g : GraphDef) (t : NodeTarget) : Bool :=
  match t with
  | .terminal => true
  | .node s => g.nodes.contains s

/-- Errors raised at graph build time or when routing. -/
inductive ValidationError where
  | emptyGraph
  | missingEntry (entry : String)
  | danglingEdge (source target : String)
deriving DecidableEq

/-- The fatal error for a decision function returning a value that
matches no registered branch key. -/
inductive RouteError where
  | configurationError (key : String)
deriving DecidableEq

/-- Modelled from the spec: graph build-time validation (§4.1
`build → GraphDefinition | ValidationError`) — the validation itself
lives in the LangGraph library, not in this repository's sources; per
the spec it rejects an empty graph, a missing entry step, and any edge
or conditional-branch target that names neither an added step nor the
terminal marker (`ValidationError{kind: DanglingEdge}`). -/
def validateGraph (g : GraphDef) : Except ValidationError Unit :=
  if g.nodes.isEmpty then .error .emptyGraph
  else if !(g.nodes.contains g.entryPoint) then .error (.missingEntry g.entryPoint)
  else
    match g.edges.find? (fun e => !(g.nodes.contains e.2)) with
    | some e => .error (.danglingEdge e.1 e.2)
    | none =>
      match g.conditionalEdges.findSome? (fun ce =>
          ce.2.findSome? (fun br =>
            match br.2 with
            | .terminal => none
            | .node s => if g.nodes.contains s then none else some (ce.1, s))) with
      | some e => .error (.danglingEdge e.1 e.2)
      | none => .ok ()

/-- Modelled from the spec: `nextSteps` on a conditional edge (§4.1) —
the routing engine is LangGraph library code, not in this repository's
sources; it evaluates the decision function supplied at build time
against the current state and returns the branch whose key matches the
function's return value, and an unmatched key is a fatal
`ConfigurationError`. -/
def conditionalNext (branches : List (String × NodeTarget))
    (decision : ContentState → String) (state : ContentState) :
    Except RouteError NodeTarget :=
  let key := decision state
  match branches.lookup key with
  | some t => .ok t
  | none => .error (.configurationError key)

/-! ## Agent node functions
(`langgraph-implementation.md` §2, lines 149–360).  External agent
calls (`InputAnalyzer.analyze_multimodal_input`, …) and wall-clock
timestamps are opaque to the engine and appear as parameters; a
raising call is an `Except.error` carrying `str(e)`. -/

/-- Build the message dict appended by several nodes. -/
def mkMessage (role content timestamp : String) : PyVal :=
  .pdict [("role", .str role), ("content", .str content), ("timestamp", .str timestamp)]

/-- `input_analyzer_node`: on success records the analysis, bumps
`step_count` and emits a message; on an exception from the analyzer
records an error-log entry and bumps `retry_count` (the `except`
branch, lines 187–200). -/
def input_analyzer_node (analysis : Except String Dict) (now : String)
    (state : ContentState) : ContentState :=
  match analysis with
  | .ok analysis_result =>
    let themeCount :=
      match dlookup analysis_result "themes" with
      | some (.pdict d) => d.length
      | _ => 0
    { state with
      input_analysis := analysis_result
      status := "analyzing_complete"
      current_agent := "input_analyzer"
      step_count := state.step_count + 1
      messages := [mkMessage "system"
        (s!"Input analysis completed. Found {themeCount} themes.") now] }
  | .error e =>
    { state with
      status := "error"
      error_log := [.pdict [("agent", .str "input_analyzer"), ("error", .str e),
                            ("timestamp", .str now)]]
      retry_count := state.retry_count + 1 }

/-- `content_planner_node`: records the plan and the generation tasks
and bumps `step_count`. -/
def content_planner_node (content_plan : Dict) (generation_tasks : List PyVal)
    (state : ContentState) : ContentState :=
  { state with
    content_plan := content_plan
    generation_tasks := generation_tasks
    status := "planning_complete"
    current_agent := "content_planner"
    step_count := state.step_count + 1 }

/-- `text_generator_node`: writes the generated text under the task's
content type (the returned dict's `text_content` is the single new
entry; the `operator.add` reducer appends it at merge time) and leaves
`step_count` untouched. -/
def text_generator_node (generated_text : String) (now : String)
    (state : ContentState) : ContentState :=
  let task := state.task
  let content_type := getStrD (dlookup task "content_type") "blog_post"
  { state with
    text_content := [(content_type, .str generated_text)]
    status := "text_generation_complete"
    messages := [mkMessage "assistant"
      (s!"Generated {content_type} content: {generated_text.length} characters") now] }

/-- `quality_assurance_node`: records the scores and issues and bumps
`step_count`. -/
def quality_assurance_node (scores : Dict) (issues : List PyVal)
    (state : ContentState) : ContentState :=
  { state with
    quality_scores := scores
    quality_issues := issues
    status := "quality_assessment_complete"
    current_agent := "quality_assurance"
    step_count := state.step_count + 1 }

/-- `human_review_node`: when resuming (`human_review_status ==
"pending"`) routes on the feedback's `action`; otherwise posts the
initial review request and pauses.  `step_count` is untouched on every
branch. -/
def human_review_node (now : String) (state : ContentState) : ContentState :=
  if state.human_review_status = some "pending" then
    let human_feedback := state.human_feedback.getD []
    match dlookup human_feedback "action" with
    | some (.str s) =>
      if s = "approve" then
        { state with
          status := "approved"
          human_review_status := some "completed"
          approval_timestamp := some now }
      else if s = "revise" then
        { state with
          status := "needs_revision"
          human_review_status := some "completed"
          revision_notes := some (getStrD (dlookup human_feedback "notes") "") }
      else
        { state with
          status := "rejected"
          human_review_status := some "completed" }
    | _ =>
      { state with
        status := "rejected"
        human_review_status := some "completed" }
  else
    { state with
      status := "awaiting_human_review"
      human_review_status := some "pending"
      review_requested_at := some now
      messages := [mkMessage "system"
        "Content submitted for human review. Workflow paused." now] }

/-! ## Invocation, resume and retry
(`langgraph-implementation.md` §4, lines 445–602). -/

/-- The initial state assembled by `run_content_workflow`
(lines 468–482). -/
def initialState (workflow_id user_id : String) (input_data : Dict)
    (user_preferences : Dict) : ContentState :=
  { workflow_id := workflow_id
    user_id := user_id
    original_input := input_data
    user_preferences := user_preferences
    status := "initiated"
    step_count := 0
    messages := []
    text_content := []
    image_content := []
    audio_content := []
    quality_issues := []
    error_log := []
    retry_count := 0 }

/-- `handle_human_review` (lines 523–555): reads the instance's
current state, writes the reviewer feedback into it and marks
`human_review_status = "feedback_received"`, then re-invokes the
graph on the updated state.  The update is unconditional: no status
check guards it.  (The subsequent `graph.ainvoke` applies the graph
from the updated state; only the update itself decides the claims
below.) -/
def handle_human_review (current : ContentState) (human_feedback : Dict) :
    ContentState :=
  { current with
    human_feedback := some human_feedback
    human_review_status := some "feedback_received" }

/-- Outcome of one call to `retry_workflow_step`: the updated state,
the backoff slept (in seconds, `2 ** retry_count`) if any, and whether
the graph was re-invoked. -/
structure RetryStepResult where
  state : ContentState
  slept : Option Nat
  invokedGraph : Bool

/-- `retry_workflow_step` (lines 558–602, `max_retries` defaulting to
3 in the source): if `retry_count` has reached `max_retries` the
workflow is marked failed and the graph is not re-invoked; otherwise
it sleeps `2 ** retry_count`, bumps `retry_count`, marks the state
retrying and re-invokes the graph. -/
def retry_workflow_step (current : ContentState) (failed_node : String)
    (max_retries : Nat) : RetryStepResult :=
  let retry_count := current.retry_count
  if retry_count ≥ max_retries then
    { state := { current with
        status := "failed"
        error_message := some (s!"Max retries exceeded for {failed_node}") }
      slept := none
      invokedGraph := false }
  else
    { state := { current with
        retry_count := retry_count + 1
        status := "retrying" }
      slept := some (2 ^ retry_count)
      invokedGraph := true }

/-- Trace of a run of a step under the retry loop: total number of
invocations of the step, the backoff delays slept between them, and
the final status. -/
structure RetryTrace where
  invocations : Nat
  delays : List Nat
  finalStatus : String
deriving Repr, DecidableEq

theorem retry_workflow_step_exhausted (current : ContentState) (fn : String)
    (mr : Nat) (h : mr ≤ current.retry_count) :
    (retry_workflow_step current fn mr).invokedGraph = false ∧
    (retry_workflow_step current fn mr).slept = none ∧
    (retry_workflow_step current fn mr).state.status = "failed" := by
  simp [retry_workflow_step, h]

theorem retry_workflow_step_retries (current : ContentState) (fn : String)
    (mr : Nat) (h : current.retry_count < mr) :
    (retry_workflow_step current fn mr).invokedGraph = true ∧
    (retry_workflow_step current fn mr).slept = some (2 ^ current.retry_count) ∧
    (retry_workflow_step current fn mr).state.retry_count = current.retry_count + 1 ∧
    (retry_workflow_step current fn mr).state.status = "retrying" := by
  have hn : ¬ current.retry_count ≥ mr := Nat.not_le.mpr h
  simp [retry_workflow_step, hn]

/-- Driver loop for scenario D: called after a failed invocation with
the current state; each iteration is one `retry_workflow_step` call
(guard `retry_count ≥ max_retries` → failed without re-invocation;
otherwise sleep `2 ^ retry_count`, bump the count and re-invoke).  The
step's implementation fails on its first `failures` invocations and
succeeds afterwards. -/
def retryLoop (failures max_retries : Nat) (current : ContentState)
    (invocations : Nat) (delays : List Nat) : RetryTrace :=
  if h : current.retry_count < max_retries then
    if invocations + 1 > failures then
      { invocations := invocations + 1
        delays := delays ++
          [(retry_workflow_step current "failed_node" max_retries).slept.getD 0]
        finalStatus := "completed" }
    else
      retryLoop failures max_retries
        (retry_workflow_step current "failed_node" max_retries).state
        (invocations + 1)
        (delays ++
          [(retry_workflow_step current "failed_node" max_retries).slept.getD 0])
  else
    { invocations := invocations, delays := delays,
      finalStatus := (retry_workflow_step current "failed_node" max_retries).state.status }
  termination_by max_retries - current.retry_count
  decreasing_by
    obtain ⟨-, -, hrc, -⟩ :=
      retry_workflow_step_retries current "failed_node" max_retries h
    omega

/-- A whole run of a step with retries: the first invocation happens
outside `retry_workflow_step`; if it fails the retry loop takes over
with the instance's `retry_count` (0 for a fresh instance). -/
def runWithRetries (failures max_retries : Nat) (start : ContentState) :
    RetryTrace :=
  if failures = 0 then { invocations := 1, delays := [], finalStatus := "completed" }
  else retryLoop failures max_retries start 1 []

/-! ## `BaseAgent.run`
(`DEVELOPER_INTEGRATION_GUIDE.md`, `src/agents/base_agent.py`,
lines 197–217). -/

/-- The result wrapper returned by `BaseAgent.run`. -/
structure AgentResult where
  state : ContentState
  success : Bool
  error : Option String := none

/-- `BaseAgent.run`: invokes the subclass's `execute` inside a
`try`/`except`; a normal return is wrapped as a success, an exception
is captured and the *original input state* is returned with
`success=False` and the error message. -/
def BaseAgent.run (execute : ContentState → Except String ContentState)
    (state : ContentState) : AgentResult :=
  match execute state with
  | .ok result_state => { state := result_state, success := true }
  | .error e => { state := state, success := false, error := some e }

/-! ## Claim theorems -/

attribute [ext] ContentState

theorem replField_eq_getD {α : Type} (b : α) (o : Option α) :
    replField b o = o.getD b := by
  cases o <;> rfl

theorem addField_eq_getD {α : Type} (b : List α) (o : Option (List α)) :
    addField b o = b ++ o.getD [] := by
  cases o <;> simp [addField]

/-- C1 (code bug): the reducer annotations do *not* realize the
claimed Shallow-merge policy.  On the dict-valued fields
`text_content`, `image_content`, `audio_content` the annotated reducer
is `operator.add`, i.e. Python's `dict + dict`, which raises
`TypeError` — so any delta presenting one of those keys crashes the
merge instead of unioning the nested mappings.  The Replace and Append
clauses of the claim do hold: on a delta avoiding the dict-valued
fields the merge succeeds, every Replace key takes the delta's value
when present and is untouched when absent, and every list-valued
`operator.add` key concatenates the delta's entries onto the existing
sequence with the base an unchanged prefix (no previously appended
entry lost).  (`mergeState` is a pure Lean function, so purity holds
by construction.) -/
theorem C1_shallow_merge_type_error (base : ContentState) (delta : StateDelta) :
    (∀ d, delta.text_content = some d →
      mergeState base delta = .error dictAddTypeError) ∧
    (∀ d, delta.image_content = some d →
      mergeState base delta = .error dictAddTypeError) ∧
    (∀ d, delta.audio_content = some d →
      mergeState base delta = .error dictAddTypeError) ∧
    (delta.text_content = none → delta.image_content = none →
     delta.audio_content = none →
      ∃ merged, mergeState base delta = .ok merged ∧
        merged.workflow_id = delta.workflow_id.getD base.workflow_id ∧
        merged.user_id = delta.user_id.getD base.user_id ∧
        merged.status = delta.status.getD base.status ∧
        merged.current_agent = delta.current_agent.getD base.current_agent ∧
        merged.step_count = delta.step_count.getD base.step_count ∧
        merged.original_input = delta.original_input.getD base.original_input ∧
        merged.input_analysis = delta.input_analysis.getD base.input_analysis ∧
        merged.content_plan = delta.content_plan.getD base.content_plan ∧
        merged.quality_scores = delta.quality_scores.getD base.quality_scores ∧
        merged.platform_content = delta.platform_content.getD base.platform_content ∧
        merged.retry_count = delta.retry_count.getD base.retry_count ∧
        merged.generation_tasks = delta.generation_tasks.getD base.generation_tasks ∧
        merged.task = delta.task.getD base.task ∧
        merged.user_preferences = delta.user_preferences.getD base.user_preferences ∧
        merged.target_platforms = delta.target_platforms.getD base.target_platforms ∧
        merged.brand_compliance = delta.brand_compliance.getD base.brand_compliance ∧
        merged.human_feedback = delta.human_feedback.getD base.human_feedback ∧
        merged.human_review_status = delta.human_review_status.getD base.human_review_status ∧
        merged.approval_timestamp = delta.approval_timestamp.getD base.approval_timestamp ∧
        merged.revision_notes = delta.revision_notes.getD base.revision_notes ∧
        merged.review_requested_at = delta.review_requested_at.getD base.review_requested_at ∧
        merged.error_message = delta.error_message.getD base.error_message ∧
        merged.text_content = base.text_content ∧
        merged.image_content = base.image_content ∧
        merged.audio_content = base.audio_content ∧
        merged.quality_issues = base.quality_issues ++ delta.quality_issues.getD [] ∧
        merged.messages = base.messages ++ delta.messages.getD [] ∧
        merged.error_log = base.error_log ++ delta.error_log.getD [] ∧
        merged.quality_issues.take base.quality_issues.length = base.quality_issues ∧
        merged.messages.take base.messages.length = base.messages ∧
        merged.error_log.take base.error_log.length = base.error_log) := by
  refine ⟨?_, ?_, ?_, ?_⟩
  · intro d hd
    simp [mergeState, addDictField, hd]
  · intro d hd
    cases htc : delta.text_content <;>
      simp [mergeState, addDictField, htc, hd]
  · intro d hd
    cases htc : delta.text_content <;>
      cases hic : delta.image_content <;>
        simp [mergeState, addDictField, htc, hic, hd]
  · intro h1 h2 h3
    simp only [mergeState, addDictField, h1, h2, h3]
    exact ⟨_, rfl, by
      simp [replField_eq_getD, addField_eq_getD, List.take_left]⟩

/-- C1 witness: the text-generator's own output delta (`text_content`
present) crashes the merge with the `TypeError`, while a delta
avoiding the dict-valued fields merges successfully. -/
theorem C1_shallow_merge_type_error_witness :
    mergeState (initialState "w" "u" [] [])
        { text_content := some [("blog_post", .str "generated")] }
      = .error dictAddTypeError ∧
    (∃ merged, mergeState (initialState "w" "u" [] [])
        { status := some "planning_complete" } = .ok merged) :=
  ⟨(C1_shallow_merge_type_error (initialState "w" "u" [] [])
      { text_content := some [("blog_post", .str "generated")] }).1 _ rfl,
   by
    obtain ⟨merged, hm, -⟩ :=
      (C1_shallow_merge_type_error (initialState "w" "u" [] [])
        { status := some "planning_complete" }).2.2.2 rfl rfl rfl
    exact ⟨merged, hm⟩⟩

/-- C4 (code bug): there is no Shallow-merge associativity to check —
any delta presenting a dict-valued `operator.add` field makes the
merge raise `TypeError` under either grouping (merging D1 then D2, or
merging their one-step combination), because `dict + dict` is not
defined.  The claimed law does hold on the fragment the code can
actually merge: for deltas avoiding the dict-valued fields, merging D1
then D2 equals merging their one-step combination (Append sequences
pre-concatenated, replace keys taken from the later delta), and a
Replace key reflects the last applied delta. -/
theorem C4_merge_associativity_blocked (base : ContentState) (d1 d2 : StateDelta) :
    (d1.text_content = none → d1.image_content = none → d1.audio_content = none →
     d2.text_content = none → d2.image_content = none → d2.audio_content = none →
      ((mergeState base d1).bind (fun s => mergeState s d2)
        = mergeState base (combineDelta d1 d2)) ∧
      (∀ v, d2.status = some v → ∀ s, mergeState base d1 = .ok s →
        ∃ m, mergeState s d2 = .ok m ∧ m.status = v)) ∧
    (∀ d, d1.text_content = some d →
      ((mergeState base d1).bind (fun s => mergeState s d2)
        = .error dictAddTypeError) ∧
      (mergeState base (combineDelta d1 d2) = .error dictAddTypeError)) := by
  constructor
  · intro h1 h2 h3 h4 h5 h6
    constructor
    · simp [mergeState, addDictField, h1, h2, h3, h4, h5, h6, combineDelta,
        combineShallow, Except.bind, replField_combine, addField_combine]
    · intro v hv s hs
      simp only [mergeState, addDictField, h4, h5, h6]
      exact ⟨_, rfl, by simp [replField, hv]⟩
  · intro d hd
    constructor
    · simp [mergeState, addDictField, hd, Except.bind]
    · cases h2 : d2.text_content <;>
        simp [mergeState, addDictField, combineDelta, combineShallow, hd, h2]

/-- C4 witness: associativity at a concrete dict-free pair of deltas,
and a delta presenting `text_content` crashing both groupings. -/
theorem C4_merge_associativity_blocked_witness :
    ((mergeState (initialState "w" "u" [] []) { status := some "a" }).bind
        (fun s => mergeState s { status := some "b" })
      = mergeState (initialState "w" "u" [] [])
          (combineDelta { status := some "a" } { status := some "b" })) ∧
    ((mergeState (initialState "w" "u" [] [])
        { text_content := some [("k", .str "v")] }).bind
        (fun s => mergeState s { status := some "b" })
      = .error dictAddTypeError) :=
  ⟨((C4_merge_associativity_blocked (initialState "w" "u" [] [])
      { status := some "a" } { status := some "b" }).1
        rfl rfl rfl rfl rfl rfl).1,
   ((C4_merge_associativity_blocked (initialState "w" "u" [] [])
      { text_content := some [("k", .str "v")] } { status := some "b" }).2
        _ rfl).1⟩

theorem human_review_node_step_count (now : String) (st : ContentState) :
    (human_review_node now st).step_count = st.step_count := by
  unfold human_review_node
  split
  · cases hd : dlookup (st.human_feedback.getD []) "action" with
    | none => simp [hd]
    | some v =>
      cases v with
      | str s =>
        by_cases h1 : s = "approve"
        · simp [hd, h1]
        · by_cases h2 : s = "revise" <;> simp [hd, h1, h2]
      | num q => simp [hd]
      | bool b => simp [hd]
      | pdict d => simp [hd]
  · rfl

/-- C7: every node function in the source returns a state whose
`step_count` is at least the input state's — `input_analyzer_node`
(both the success and the exception branch), `content_planner_node`
and `quality_assurance_node` increment it, `text_generator_node` and
`human_review_node` (every branch) leave it unchanged — so the
sequence of `step_count` values across an execution never
decreases. -/
theorem C7_step_count_monotone (analysis : Except String Dict)
    (now1 now2 now3 now4 : String) (plan : Dict) (tasks : List PyVal)
    (generated_text : String) (scores : Dict) (issues : List PyVal)
    (st : ContentState) :
    st.step_count ≤ (input_analyzer_node analysis now1 st).step_count ∧
    st.step_count ≤ (content_planner_node plan tasks st).step_count ∧
    st.step_count ≤ (text_generator_node generated_text now2 st).step_count ∧
    st.step_count ≤ (quality_assurance_node scores issues st).step_count ∧
    st.step_count ≤ (human_review_node now3 st).step_count ∧
    (human_review_node now4 st).step_count = st.step_count := by
  refine ⟨?_, ?_, ?_, ?_, ?_, ?_⟩
  · cases analysis <;> simp [input_analyzer_node]
  · simp [content_planner_node]
  · simp [text_generator_node]
  · simp [quality_assurance_node]
  · rw [human_review_node_step_count]
  · exact human_review_node_step_count now4 st

/-- C9: whenever the human feedback is absent or its `action` field is
neither `"approve"` nor `"revise"`, `human_decision_condition` returns
`"reject"`, and the `human_review` conditional edge maps `"reject"` to
the terminal marker `END` — so resuming with empty or unrecognized
feedback terminates the workflow as rejected rather than erroring. -/
theorem C9_unrecognized_feedback_rejects (st : ContentState)
    (h : ∀ s, dlookup (st.human_feedback.getD []) "action" = some (.str s) →
      s ≠ "approve" ∧ s ≠ "revise") :
    human_decision_condition st = "reject" ∧
    conditionalNext humanReviewBranches human_decision_condition st
      = .ok .terminal ∧
    humanReviewBranches.lookup "reject" = some .terminal := by
  have hcond : human_decision_condition st = "reject" := by
    unfold human_decision_condition
    cases hd : dlookup (st.human_feedback.getD []) "action" with
    | none => simp [hd]
    | some v =>
      cases v with
      | str s =>
        obtain ⟨h1, h2⟩ := h s hd
        simp [hd, h1, h2]
      | num q => simp [hd]
      | bool b => simp [hd]
      | pdict d => simp [hd]
  refine ⟨hcond, ?_, rfl⟩
  simp only [conditionalNext, hcond]
  rfl

/-- C9 witness: a fresh instance carries no `human_feedback`, and
resuming it routes to `"reject"` and thence to `END`. -/
theorem C9_unrecognized_feedback_rejects_witness :
    human_decision_condition (initialState "w" "u" [] []) = "reject" ∧
    conditionalNext humanReviewBranches human_decision_condition
      (initialState "w" "u" [] []) = .ok .terminal ∧
    humanReviewBranches.lookup "reject" = some .terminal :=
  C9_unrecognized_feedback_rejects (initialState "w" "u" [] [])
    (fun s hs => by simp [initialState, dlookup] at hs)

/-- C10: `BaseAgent.run` never propagates an exception from `execute`:
a raising `execute` yields `success=False`, the error message, and the
*original* input state; a normal return yields the resulting state
with `success=True`. -/
theorem C10_base_agent_run_captures
    (execute : ContentState → Except String ContentState)
    (st : ContentState) :
    (∀ e, execute st = .error e →
      BaseAgent.run execute st = { state := st, success := false, error := some e }) ∧
    (∀ result, execute st = .ok result →
      BaseAgent.run execute st = { state := result, success := true, error := none }) := by
  constructor
  · intro e he
    simp [BaseAgent.run, he]
  · intro result hr
    simp [BaseAgent.run, hr]

/-- C10 witness: a raising `execute` and a succeeding `execute`
evaluated on a fresh state. -/
theorem C10_base_agent_run_captures_witness :
    BaseAgent.run (fun _ => .error "boom") (initialState "w" "u" [] [])
      = { state := initialState "w" "u" [] [], success := false, error := some "boom" } ∧
    BaseAgent.run (fun s => .ok { s with status := "done" }) (initialState "w" "u" [] [])
      = { state := { initialState "w" "u" [] [] with status := "done" },
          success := true, error := none } :=
  ⟨(C10_base_agent_run_captures (fun _ => .error "boom")
      (initialState "w" "u" [] [])).1 "boom" rfl,
   (C10_base_agent_run_captures (fun s => .ok { s with status := "done" })
      (initialState "w" "u" [] [])).2 _ rfl⟩

/-- A retired (non-interrupted) workflow instance, for claim C6. -/
def completedInstance : ContentState :=
  { initialState "wf-1" "user-1" [] [] with status := "completed" }

/-- Reviewer feedback approving the content. -/
def approveFeedback : Dict := [("action", .str "approve")]

/-- C6 counterexample: `handle_human_review` on an instance whose
status is `"completed"` (not interrupted) does *not* fail — it has no
status check and no error path — and it mutates the state: the
feedback is written and `human_review_status` becomes
`"feedback_received"`, contradicting "fails with InvalidStateError and
performs no state mutation". -/
theorem C6_resume_counterexample :
    completedInstance.status = "completed" ∧
    completedInstance.human_feedback = none ∧
    (handle_human_review completedInstance approveFeedback).human_feedback
      = some approveFeedback ∧
    (handle_human_review completedInstance approveFeedback).human_review_status
      = some "feedback_received" ∧
    handle_human_review completedInstance approveFeedback ≠ completedInstance := by
  refine ⟨rfl, rfl, rfl, rfl, ?_⟩
  intro hEq
  have := congrArg ContentState.human_feedback hEq
  simp [handle_human_review, completedInstance, initialState] at this

/-- C6 amended: `handle_human_review` merges the reviewer feedback
into the state document unconditionally — the same update is applied
whatever the instance's status, no `InvalidStateError` exists in its
code, and the untouched status is carried through to the
re-invocation. -/
theorem C6_resume_merges_unconditionally (current : ContentState)
    (feedback : Dict) (s1 s2 : String) :
    ((handle_human_review { current with status := s1 } feedback).human_feedback
      = (handle_human_review { current with status := s2 } feedback).human_feedback) ∧
    ((handle_human_review current feedback).human_feedback = some feedback) ∧
    ((handle_human_review current feedback).human_review_status
      = some "feedback_received") ∧
    ((handle_human_review current feedback).status = current.status) := by
  simp [handle_human_review]

theorem quality_gate_condition_range (st : ContentState) :
    quality_gate_condition st = "needs_improvement" ∨
    quality_gate_condition st = "approved" ∨
    quality_gate_condition st = "human_review" := by
  unfold quality_gate_condition
  split
  · exact Or.inl rfl
  · split_ifs <;> simp

theorem brand_compliance_condition_range (st : ContentState) :
    brand_compliance_condition st = "compliant" ∨
    brand_compliance_condition st = "needs_revision" := by
  unfold brand_compliance_condition
  split_ifs <;> simp

theorem human_decision_condition_range (st : ContentState) :
    human_decision_condition st = "approved" ∨
    human_decision_condition st = "revise" ∨
    human_decision_condition st = "reject" := by
  unfold human_decision_condition
  cases hd : dlookup (st.human_feedback.getD []) "action" with
  | none => simp [hd]
  | some v =>
    cases v with
    | str s => by_cases h1 : s = "approve" <;> by_cases h2 : s = "revise" <;>
        simp [hd, h1, h2]
    | num q => simp [hd]
    | bool b => simp [hd]
    | pdict d => simp [hd]

/-- A state with a pending platform: one target platform and no
optimized platform content yet. -/
def pendingPlatformState : ContentState :=
  { initialState "wf-2" "user-2" [] [] with target_platforms := ["twitter"] }

/-- C2 counterexample: `completion_condition` returns
`"needs_optimization"` on a reachable state (a target platform without
optimized content), but the `cross_platform` conditional edge
registers only `"complete"` and `"needs_review"`, so routing that
value is a `ConfigurationError` — refuting "every value each
registered decision function can return is a registered branch key of
the conditional edge it is attached to". -/
theorem C2_completion_unregistered_branch :
    completion_condition pendingPlatformState = "needs_optimization" ∧
    crossPlatformBranches.lookup "needs_optimization" = none ∧
    conditionalNext crossPlatformBranches completion_condition pendingPlatformState
      = .error (.configurationError "needs_optimization") := by
  refine ⟨rfl, rfl, ?_⟩
  rfl

/-- C2 amended: `nextSteps` on a conditional edge returns the branch
whose key matches the decision function's return value, and an
unmatched value is a fatal `ConfigurationError`; every value
`quality_gate_condition`, `brand_compliance_condition` and
`human_decision_condition` can return is a registered branch key of
its edge — but `completion_condition` can additionally return
`"needs_optimization"`, which is not a registered branch key of the
`cross_platform` edge and so surfaces as a `ConfigurationError`
there. -/
theorem C2_conditional_routing (branches : List (String × NodeTarget))
    (decision : ContentState → String) (st : ContentState) :
    (∀ t, branches.lookup (decision st) = some t →
      conditionalNext branches decision st = .ok t) ∧
    (branches.lookup (decision st) = none →
      conditionalNext branches decision st
        = .error (.configurationError (decision st))) ∧
    (∃ t, conditionalNext qualityGateBranches quality_gate_condition st = .ok t) ∧
    (∃ t, conditionalNext brandComplianceBranches brand_compliance_condition st = .ok t) ∧
    (∃ t, conditionalNext humanReviewBranches human_decision_condition st = .ok t) := by
  refine ⟨?_, ?_, ?_, ?_, ?_⟩
  · intro t ht
    simp [conditionalNext, ht]
  · intro ht
    simp [conditionalNext, ht]
  · rcases quality_gate_condition_range st with h | h | h <;>
      exact ⟨_, by simp only [conditionalNext, h]; rfl⟩
  · rcases brand_compliance_condition_range st with h | h <;>
      exact ⟨_, by simp only [conditionalNext, h]; rfl⟩
  · rcases human_decision_condition_range st with h | h | h <;>
      exact ⟨_, by simp only [conditionalNext, h]; rfl⟩

/-- C2 witness: the routing clauses applied at concrete inputs — a
fresh instance's human-review decision routes to a registered branch,
and the unregistered `"needs_optimization"` value errors. -/
theorem C2_conditional_routing_witness :
    conditionalNext humanReviewBranches human_decision_condition
      (initialState "w" "u" [] []) = .ok .terminal ∧
    conditionalNext crossPlatformBranches completion_condition pendingPlatformState
      = .error (.configurationError "needs_optimization") :=
  ⟨(C2_conditional_routing humanReviewBranches human_decision_condition
      (initialState "w" "u" [] [])).1 .terminal rfl,
   (C2_conditional_routing crossPlatformBranches completion_condition
      pendingPlatformState).2.1 rfl⟩

/-- C3: the graph assembled by `create_viralearn_graph` violates the
build-time invariant the claim asserts of it — the edge
`content_planner → parallel_generation` (and the edge and branch
targets naming `"parallel_generation"` generally) points at a name
that was never added as a node, so the spec-modelled validation
rejects the graph with a `DanglingEdge` error instead of building
successfully. -/
theorem C3_viralearn_graph_dangling :
    ("content_planner", "parallel_generation") ∈ createViralearnGraph.edges ∧
    "parallel_generation" ∉ createViralearnGraph.nodes ∧
    validateGraph createViralearnGraph
      = .error (.danglingEdge "content_planner" "parallel_generation") := by
  refine ⟨by simp [createViralearnGraph], by simp [createViralearnGraph], ?_⟩
  rfl

theorem retryLoop_invocations_le :
    ∀ (fuel failures mr : Nat) (c : ContentState) (inv : Nat) (ds : List Nat),
    mr - c.retry_count ≤ fuel →
    (retryLoop failures mr c inv ds).invocations ≤ inv + (mr - c.retry_count) := by
  intro fuel
  induction fuel with
  | zero =>
    intro f mr c inv ds hf
    rw [retryLoop.eq_def, dif_neg (by omega)]
    show inv ≤ inv + (mr - c.retry_count)
    omega
  | succ n ih =>
    intro f mr c inv ds hf
    rw [retryLoop.eq_def]
    by_cases h : c.retry_count < mr
    · rw [dif_pos h]
      by_cases hdone : inv + 1 > f
      · rw [if_pos hdone]
        show inv + 1 ≤ inv + (mr - c.retry_count)
        omega
      · rw [if_neg hdone]
        obtain ⟨-, -, hrc, -⟩ :=
          retry_workflow_step_retries c "failed_node" mr h
        have hrec := ih f mr (retry_workflow_step c "failed_node" mr).state
          (inv + 1)
          (ds ++ [(retry_workflow_step c "failed_node" mr).slept.getD 0])
          (by rw [hrc]; omega)
        rw [hrc] at hrec
        omega
    · rw [dif_neg h]
      show inv ≤ inv + (mr - c.retry_count)
      omega

/-- C5: `retry_workflow_step` is a bounded exponential backoff — once
`retry_count` reaches `max_retries` the workflow is marked failed with
no further graph invocation; below the bound it sleeps
`2 ^ retry_count` and bumps the count, so the backoff of the next
retry is never smaller than the current one; a run starting from a
fresh instance performs at most `max_retries` retries
(`max_retries + 1` invocations in total); and a step that fails twice
then succeeds, under the source's default `max_retries = 3`, is
invoked exactly 3 times with non-decreasing delays `[1, 2]` and
completes. -/
theorem C5_retry_bounded_exponential_backoff (st start : ContentState)
    (fn : String) (mr : Nat) (hstart : start.retry_count = 0) :
    (mr ≤ st.retry_count →
      (retry_workflow_step st fn mr).invokedGraph = false ∧
      (retry_workflow_step st fn mr).state.status = "failed") ∧
    (st.retry_count < mr →
      (retry_workflow_step st fn mr).invokedGraph = true ∧
      (retry_workflow_step st fn mr).slept = some (2 ^ st.retry_count) ∧
      (retry_workflow_step st fn mr).state.retry_count = st.retry_count + 1) ∧
    (∀ d1 d2, (retry_workflow_step st fn mr).slept = some d1 →
      (retry_workflow_step (retry_workflow_step st fn mr).state fn mr).slept = some d2 →
      d1 ≤ d2) ∧
    (∀ failures, (runWithRetries failures mr start).invocations ≤ mr + 1) ∧
    (runWithRetries 2 3 start
      = { invocations := 3, delays := [1, 2], finalStatus := "completed" }) := by
  refine ⟨?_, ?_, ?_, ?_, ?_⟩
  · intro hge
    obtain ⟨h1, -, h3⟩ := retry_workflow_step_exhausted st fn mr hge
    exact ⟨h1, h3⟩
  · intro hlt
    obtain ⟨h1, h2, h3, -⟩ := retry_workflow_step_retries st fn mr hlt
    exact ⟨h1, h2, h3⟩
  · intro d1 d2 h1 h2
    by_cases hlt : st.retry_count < mr
    · obtain ⟨-, hs, hrc, -⟩ := retry_workflow_step_retries st fn mr hlt
      rw [hs] at h1
      injection h1 with h1e
      by_cases hlt2 : (retry_workflow_step st fn mr).state.retry_count < mr
      · obtain ⟨-, hs2, -, -⟩ :=
          retry_workflow_step_retries (retry_workflow_step st fn mr).state fn mr hlt2
        rw [hs2, hrc] at h2
        injection h2 with h2e
        rw [← h1e, ← h2e]
        exact Nat.pow_le_pow_right (by omega) (Nat.le_succ _)
      · obtain ⟨-, hs2, -⟩ := retry_workflow_step_exhausted
          (retry_workflow_step st fn mr).state fn mr (by omega)
        rw [hs2] at h2
        exact absurd h2 (by simp)
    · obtain ⟨-, hs, -⟩ := retry_workflow_step_exhausted st fn mr (by omega)
      rw [hs] at h1
      exact absurd h1 (by simp)
  · intro failures
    unfold runWithRetries
    by_cases hz : failures = 0
    · rw [if_pos hz]
      show 1 ≤ mr + 1
      omega
    · rw [if_neg hz]
      have := retryLoop_invocations_le mr failures mr start 1 [] (by omega)
      omega
  · unfold runWithRetries
    rw [if_neg (by omega)]
    rw [retryLoop.eq_def, dif_pos (by omega : start.retry_count < 3)]
    rw [if_neg (by omega)]
    obtain ⟨-, hs1, hrc1, -⟩ := retry_workflow_step_retries start "failed_node" 3
      (by omega)
    rw [retryLoop.eq_def, dif_pos (by rw [hrc1]; omega)]
    rw [if_pos (by omega)]
    obtain ⟨-, hs2, -, -⟩ := retry_workflow_step_retries
      (retry_workflow_step start "failed_node" 3).state "failed_node" 3
      (by rw [hrc1]; omega)
    rw [hs1, hs2, hrc1, hstart]
    rfl

/-- C5 witness: all clauses instantiated on a fresh instance with the
source's default `max_retries = 3`. -/
theorem C5_retry_bounded_exponential_backoff_witness :
    (retry_workflow_step (initialState "w" "u" [] []) "text_generator" 3).slept
      = some 1 ∧
    runWithRetries 2 3 (initialState "w" "u" [] [])
      = { invocations := 3, delays := [1, 2], finalStatus := "completed" } :=
  ⟨((C5_retry_bounded_exponential_backoff (initialState "w" "u" [] [])
      (initialState "w" "u" [] []) "text_generator" 3 rfl).2.1
        (by decide)).2.1,
   (C5_retry_bounded_exponential_backoff (initialState "w" "u" [] [])
      (initialState "w" "u" [] []) "text_generator" 3 rfl).2.2.2.2⟩

end ContentBot
